import Mathlib

/-!
Verification development for the lovable-mcp-server repository
(src/index.ts).  The server exposes GitHub-backed capabilities over an
SSE transport; the shallow embedding below models the session table, the
two transport endpoints and the capability handlers that the claims
concern.  Upstream HTTP calls are modelled as explicit outcome values
handed to each handler (the value githubRequest would return, or the
status/body of the exception it throws on a non-success response).
-/

/- ### Upstream client (githubRequest) -/

/-- Message of the exception thrown by githubRequest for a non-success
upstream status: `GitHub API error: STATUS - BODY`. -/
def githubErrorMsg (status : Nat) (body : String) : String :=
  "GitHub API error: " ++ toString status ++ " - " ++ body

/-- Outcome of one upstream call as observed by a handler: the parsed
value, or the status and body of the exception githubRequest throws on a
non-success response. -/
inductive UpstreamOutcome (α : Type) where
  | ok (val : α)
  | fail (status : Nat) (body : String)
deriving DecidableEq

/-- Terminal outcome of a capability handler as the MCP layer sees it: a
success payload, or the message of an exception that escaped the handler
(converted by the dispatcher into a generic error result). -/
inductive HandlerOutcome (α : Type) where
  | success (val : α)
  | errorResult (msg : String)
deriving DecidableEq

/- ### Session table (`transports`) and SSE stream lifecycle -/

/-- Lifecycle events observed by the `transports` record: the `/sse`
handler assigns `transports[sessionId] = transport` on establishment and
`delete transports[sessionId]` runs on close (onclose or connect error). -/
inductive SessionEvent where
  | streamOpen (id : String)
  | streamClose (id : String)
deriving DecidableEq

/-- Record assignment `transports[sessionId] = transport`, viewed on the
key set: a fresh key is appended, an existing key keeps its single slot. -/
def addSession (t : List String) (id : String) : List String :=
  if id ∈ t then t else t ++ [id]

/-- Key removal `delete transports[sessionId]`; idempotent. -/
def removeSession (t : List String) (id : String) : List String :=
  t.filter (fun x => x ≠ id)

/-- One lifecycle event applied to the session table. -/
def applyEvent (t : List String) : SessionEvent → List String
  | .streamOpen id => addSession t id
  | .streamClose id => removeSession t id

/-- A sequence of lifecycle events applied in order. -/
def runEvents (t : List String) (evs : List SessionEvent) : List String :=
  evs.foldl applyEvent t

/-- Lookup `transports[sessionId]` performed by the `/messages` endpoint,
reduced to key presence. -/
def lookupSession (t : List String) (id : String) : Bool :=
  t.contains id

/- ### Messages endpoint (`app.post("/messages")`) -/

/-- Terminal outcome of one POST to `/messages`. -/
inductive PostOutcome where
  | badRequest
  | notFound
  | handled
  | internalError
deriving DecidableEq

/-- The `/messages` handler: reads `sessionId` from the query string
(absent or empty is falsy, hence 400), looks it up in the session table
(miss is 404), and only then hands the request to the transport's
dispatch via handlePostMessage.  The second component records whether
dispatch work was reached. -/
def handle_messages (table : List String) (sessionId : Option String)
    (postOk : Bool) : PostOutcome × Bool :=
  match sessionId with
  | none => (.badRequest, false)
  | some sid =>
    if sid = "" then (.badRequest, false)
    else if sid ∈ table then
      ((if postOk then .handled else .internalError), true)
    else (.notFound, false)

/- ### File-mutation handlers (update_file, delete_file, rename_file) -/

/-- File object returned by a contents read: decoded content and the
current version token (`sha`). -/
structure FileInfo where
  content : String
  sha : String
deriving DecidableEq

/-- Commit reference returned by a successful contents PUT
(`result.commit.sha`). -/
structure CommitInfo where
  sha : String
deriving DecidableEq

/-- The update_file handler: try to read the existing file for its
version token, swallowing the read exception (`catch {}`); then PUT the
new content, presenting the token when one was obtained.  `put` is the
upstream PUT as a function of the presented token. -/
def update_file (readExisting : UpstreamOutcome FileInfo)
    (put : Option String → UpstreamOutcome CommitInfo) :
    HandlerOutcome String :=
  let sha : Option String :=
    match readExisting with
    | .ok existing => some existing.sha
    | .fail _ _ => none
  match put sha with
  | .ok result => .success result.sha
  | .fail status body => .errorResult (githubErrorMsg status body)

/-- The rename_file handler: read the old file, PUT its content at the
new path, then DELETE the old path; any step's exception escapes to the
dispatcher unchanged. -/
def rename_file (oldPath newPath : String)
    (readOld : UpstreamOutcome FileInfo)
    (putNew : UpstreamOutcome Unit)
    (deleteOld : UpstreamOutcome Unit) : HandlerOutcome (String × String) :=
  match readOld with
  | .fail status body => .errorResult (githubErrorMsg status body)
  | .ok _ =>
    match putNew with
    | .fail status body => .errorResult (githubErrorMsg status body)
    | .ok _ =>
      match deleteOld with
      | .fail status body => .errorResult (githubErrorMsg status body)
      | .ok _ => .success (oldPath, newPath)

/- ### Project statistics (get_project_stats) -/

/-- Fields of the repository metadata object that the statistics
capability reads. -/
structure RepoData where
  size : Nat
  stargazers_count : Nat
  forks_count : Nat
  open_issues_count : Nat
  default_branch : String
  created_at : String
  pushed_at : String
deriving DecidableEq

/-- The JSON payload get_project_stats builds on success. -/
structure ProjectStats where
  size : Nat
  stars : Nat
  forks : Nat
  openIssues : Nat
  languages : List (String × Nat)
  contributorsCount : Nat
  defaultBranch : String
  createdAt : String
  lastPush : String
deriving DecidableEq

/-- The four upstream endpoints issued together (Promise.all) by
get_project_stats, in source order. -/
def statsEndpoints (owner repo : String) : List String :=
  ["/repos/" ++ owner ++ "/" ++ repo,
   "/repos/" ++ owner ++ "/" ++ repo ++ "/languages",
   "/repos/" ++ owner ++ "/" ++ repo ++ "/contributors",
   "/repos/" ++ owner ++ "/" ++ repo ++ "/commits?per_page=1"]

/-- Success payload of get_project_stats from the repository metadata,
the language table and the contributor count. -/
def statsPayload (r : RepoData) (langs : List (String × Nat))
    (ncontrib : Nat) : ProjectStats :=
  ⟨r.size, r.stargazers_count, r.forks_count, r.open_issues_count,
    langs, ncontrib, r.default_branch, r.created_at, r.pushed_at⟩

/-- The get_project_stats handler over the four upstream outcomes: the
contributors call alone carries `.catch(() => [])`, so its failure is
replaced by the empty list; a failure of any of the other three rejects
the whole Promise.all and the handler fails (`none`). -/
def get_project_stats (repoData : UpstreamOutcome RepoData)
    (languages : UpstreamOutcome (List (String × Nat)))
    (contributors : UpstreamOutcome (List String))
    (commits : UpstreamOutcome (List String)) : Option ProjectStats :=
  match repoData, languages, commits with
  | .ok r, .ok langs, .ok _ =>
    let contribList : List String :=
      match contributors with
      | .ok cs => cs
      | .fail _ _ => []
    some (statsPayload r langs contribList.length)
  | _, _, _ => none

/- ### Build URL (generate_build_url) -/

/-- Uppercase hexadecimal digit for a value below 16. -/
def hexUpper (n : Nat) : Char :=
  if n < 10 then Char.ofNat (48 + n) else Char.ofNat (55 + n)

/-- Percent-escape of one byte, as `%XY` with uppercase hex. -/
def percentEncodeByte (b : UInt8) : String :=
  "%" ++ String.singleton (hexUpper (b.toNat / 16))
      ++ String.singleton (hexUpper (b.toNat % 16))

/-- Characters encodeURIComponent leaves unescaped: ASCII alphanumerics
and `- _ . ! ~ * ' ( )`. -/
def isUriUnescaped (c : Char) : Bool :=
  c.isAlphanum || c = '-' || c = '_' || c = '.' || c = '!' || c = '~'
    || c = '*' || c = '\'' || c = '(' || c = ')'

/-- JavaScript's encodeURIComponent: unescaped characters pass through,
every other character is replaced by the percent escapes of its UTF-8
bytes. -/
def encodeURIComponent (s : String) : String :=
  String.join (s.toList.map (fun c =>
    if isUriUnescaped c then String.singleton c
    else String.join ((String.singleton c).toUTF8.toList.map percentEncodeByte)))

/-- The fixed build-entry portion of the generated URL. -/
def buildUrlBase : String := "https://lovable.dev/?autosubmit=true#prompt="

/-- The generate_build_url handler: pure string construction.  The
second component lists upstream calls issued, which is none. -/
def generate_build_url (prompt : String) (images : List String) :
    String × List String :=
  let encodedPrompt := encodeURIComponent prompt
  let url := buildUrlBase ++ encodedPrompt
  let url := if images.length > 0 then
      url ++ "&" ++ String.intercalate "&"
        ((images.take 10).map (fun img => "images=" ++ encodeURIComponent img))
    else url
  (url, [])

/- ### Convention-folder listings -/

/-- Directory entry returned by a contents listing. -/
structure GhEntry where
  name : String
  path : String
  type : String
deriving DecidableEq

/-- Result of a folder-listing capability: the reshaped entries, or the
explicit absence marker (the `error` payload) returned from the catch
branch.  The capability itself never fails: both shapes are ordinary
Results. -/
inductive FolderReply (α : Type) where
  | entries (items : List α)
  | absence (msg : String)
deriving DecidableEq

/-- JavaScript String.replace with a plain-string pattern: only the
first occurrence is replaced. -/
def replaceFirst (s pat repl : String) : String :=
  match s.splitOn pat with
  | [] => s
  | [x] => x
  | x :: rest => x ++ repl ++ String.intercalate pat rest

/-- list_components: entries of src/components/ui with `.tsx` stripped
from the name. -/
def list_components (fetch : UpstreamOutcome (List GhEntry)) :
    FolderReply (String × String) :=
  match fetch with
  | .ok contents =>
    .entries (contents.map (fun item =>
      (replaceFirst item.name ".tsx" "", item.path)))
  | .fail _ _ => .absence "No UI components found"

/-- list_custom_components: files of src/components ending in `.tsx`,
with the extension stripped. -/
def list_custom_components (fetch : UpstreamOutcome (List GhEntry)) :
    FolderReply (String × String) :=
  match fetch with
  | .ok contents =>
    .entries (((contents.filter (fun item =>
        item.type == "file" && item.name.endsWith ".tsx")).map (fun item =>
      (replaceFirst item.name ".tsx" "", item.path))))
  | .fail _ _ => .absence "No custom components found"

/-- list_pages: entries of src/pages with `.tsx` stripped. -/
def list_pages (fetch : UpstreamOutcome (List GhEntry)) :
    FolderReply (String × String) :=
  match fetch with
  | .ok contents =>
    .entries (contents.map (fun item =>
      (replaceFirst item.name ".tsx" "", item.path)))
  | .fail _ _ => .absence "No pages found"

/-- list_hooks: entries of src/hooks with `.ts` then `.tsx` stripped. -/
def list_hooks (fetch : UpstreamOutcome (List GhEntry)) :
    FolderReply (String × String) :=
  match fetch with
  | .ok contents =>
    .entries (contents.map (fun item =>
      (replaceFirst (replaceFirst item.name ".ts" "") ".tsx" "", item.path)))
  | .fail _ _ => .absence "No hooks found"

/-- list_contexts: entries of src/contexts with `.tsx` then `.ts`
stripped. -/
def list_contexts (fetch : UpstreamOutcome (List GhEntry)) :
    FolderReply (String × String) :=
  match fetch with
  | .ok contents =>
    .entries (contents.map (fun item =>
      (replaceFirst (replaceFirst item.name ".tsx" "") ".ts" "", item.path)))
  | .fail _ _ => .absence "No contexts found"

/-- list_utils: entries of src/utils, falling back to src/lib, with
`.ts` then `.tsx` stripped; the marker is returned only when both
folders are missing. -/
def list_utils (fetchUtils fetchLib : UpstreamOutcome (List GhEntry)) :
    FolderReply (String × String) :=
  match fetchUtils with
  | .ok contents =>
    .entries (contents.map (fun item =>
      (replaceFirst (replaceFirst item.name ".ts" "") ".tsx" "", item.path)))
  | .fail _ _ =>
    match fetchLib with
    | .ok libContents =>
      .entries (libContents.map (fun item =>
        (replaceFirst (replaceFirst item.name ".ts" "") ".tsx" "", item.path)))
    | .fail _ _ => .absence "No utils/lib found"

/-- list_types: entries of src/types with `.ts` then `.d.ts` stripped. -/
def list_types (fetch : UpstreamOutcome (List GhEntry)) :
    FolderReply (String × String) :=
  match fetch with
  | .ok contents =>
    .entries (contents.map (fun item =>
      (replaceFirst (replaceFirst item.name ".ts" "") ".d.ts" "", item.path)))
  | .fail _ _ => .absence "No types folder found"

/-- list_integrations: entries of src/integrations kept as
name/type/path triples. -/
def list_integrations (fetch : UpstreamOutcome (List GhEntry)) :
    FolderReply (String × String × String) :=
  match fetch with
  | .ok contents =>
    .entries (contents.map (fun item => (item.name, item.type, item.path)))
  | .fail _ _ => .absence "No integrations found"

/- ### Issues listing (list_issues) -/

/-- Item of the upstream issues listing; `pullRequest` records whether
the item carries the `pull_request` marker GitHub adds when the item is
really a pull request. -/
structure GhIssue where
  number : Nat
  title : String
  state : String
  userLogin : String
  labels : List String
  createdAt : String
  htmlUrl : String
  pullRequest : Bool
deriving DecidableEq

/-- Reshaped issue as list_issues emits it. -/
structure IssueSummary where
  number : Nat
  title : String
  state : String
  author : String
  labels : List String
  createdAt : String
  url : String
deriving DecidableEq

/-- Field reshaping applied by list_issues to one issue. -/
def reshapeIssue (i : GhIssue) : IssueSummary :=
  ⟨i.number, i.title, i.state, i.userLogin, i.labels, i.createdAt, i.htmlUrl⟩

/-- The list_issues formatting: items carrying the pull_request marker
are filtered out, the rest are reshaped. -/
def list_issues (issues : List GhIssue) : List IssueSummary :=
  (issues.filter (fun i => !i.pullRequest)).map reshapeIssue

/- ### Multiple file reads (read_multiple_files) -/

/-- Record assignment `results[path] = value`: an existing key's slot is
overwritten in place, a fresh key is appended at the end. -/
def recordSet : List (String × String) → String → String → List (String × String)
  | [], k, v => [(k, v)]
  | p :: rest, k, v =>
    if p.1 = k then (k, v) :: rest else p :: recordSet rest k v

/-- Value stored for one path: the decoded content when the upstream
read succeeds, otherwise `Error: ` followed by the message of the
exception githubRequest threw. -/
def fileEntry (fetch : String → UpstreamOutcome String) (p : String) :
    String :=
  match fetch p with
  | .ok content => content
  | .fail status body => "Error: " ++ githubErrorMsg status body

/-- The read_multiple_files handler: one by one, each requested path is
read (the upstream fetch-and-decode modelled by `fetch`) inside its own
try/catch, and the outcome is assigned into the results record. -/
def read_multiple_files (fetch : String → UpstreamOutcome String)
    (paths : List String) : List (String × String) :=
  paths.foldl (fun m p => recordSet m p (fileEntry fetch p)) []

/-- Lookup of a key in the results record. -/
def lookupEntry (m : List (String × String)) (k : String) :
    Option String :=
  (m.find? (fun p => p.1 = k)).map (fun p => p.2)

/- ### Session-table lemmas -/

theorem lookupSession_eq_false_iff (t : List String) (id : String) :
    lookupSession t id = false ↔ id ∉ t := by
  simp [lookupSession]

theorem runEvents_append (t : List String) (evs1 evs2 : List SessionEvent) :
    runEvents t (evs1 ++ evs2) = runEvents (runEvents t evs1) evs2 := by
  simp [runEvents, List.foldl_append]

theorem not_mem_applyEvent (t : List String) (id : String) (e : SessionEvent)
    (hmem : id ∉ t) (hne : e ≠ SessionEvent.streamOpen id) :
    id ∉ applyEvent t e := by
  cases e with
  | streamOpen j =>
      have hji : j ≠ id := by
        intro h
        exact hne (by rw [h])
      by_cases hj : j ∈ t
      · simpa [applyEvent, addSession, hj] using hmem
      · simp [applyEvent, addSession, hj]
        exact ⟨hmem, fun h => hji h.symm⟩
  | streamClose j =>
      simp only [applyEvent, removeSession, List.mem_filter]
      intro h
      exact hmem h.1

theorem not_mem_runEvents (id : String) :
    ∀ (evs : List SessionEvent) (t : List String),
      id ∉ t → (∀ e ∈ evs, e ≠ SessionEvent.streamOpen id) →
      id ∉ runEvents t evs := by
  intro evs
  induction evs with
  | nil => intro t h _; simpa [runEvents] using h
  | cons e rest ih =>
      intro t hmem hfresh
      have h1 : id ∉ applyEvent t e :=
        not_mem_applyEvent t id e hmem (hfresh e (by simp))
      have h2 : ∀ x ∈ rest, x ≠ SessionEvent.streamOpen id := by
        intro x hx; exact hfresh x (by simp [hx])
      simpa [runEvents] using ih (applyEvent t e) h1 h2

theorem not_mem_removeSession (t : List String) (id : String) :
    id ∉ removeSession t id := by
  simp [removeSession]

theorem nodup_applyEvent (t : List String) (e : SessionEvent)
    (h : t.Nodup) : (applyEvent t e).Nodup := by
  cases e with
  | streamOpen j =>
      by_cases hj : j ∈ t
      · simpa [applyEvent, addSession, hj] using h
      · have happ : (t ++ [j]).Nodup := by
          simp [List.nodup_append, h, hj]
        simpa [applyEvent, addSession, hj] using happ
  | streamClose j =>
      exact List.Nodup.filter _ h

theorem nodup_runEvents :
    ∀ (evs : List SessionEvent) (t : List String),
      t.Nodup → (runEvents t evs).Nodup := by
  intro evs
  induction evs with
  | nil => intro t h; simpa [runEvents] using h
  | cons e rest ih =>
      intro t h
      simpa [runEvents] using ih (applyEvent t e) (nodup_applyEvent t e h)

/- ### Results-record lemmas -/

theorem lookupEntry_cons (p : String × String) (m : List (String × String))
    (j : String) :
    lookupEntry (p :: m) j = if p.1 = j then some p.2 else lookupEntry m j := by
  by_cases h : p.1 = j
  · simp [lookupEntry, List.find?, h]
  · simp [lookupEntry, List.find?, h]

theorem lookupEntry_recordSet_self (m : List (String × String)) (k v : String) :
    lookupEntry (recordSet m k v) k = some v := by
  induction m with
  | nil => simp [recordSet, lookupEntry_cons, lookupEntry]
  | cons p rest ih =>
      by_cases hp : p.1 = k
      · simp [recordSet, hp, lookupEntry_cons]
      · simp [recordSet, hp, lookupEntry_cons, ih]

theorem lookupEntry_recordSet_other (m : List (String × String))
    (k v j : String) (hj : j ≠ k) :
    lookupEntry (recordSet m k v) j = lookupEntry m j := by
  have hkj : ¬ k = j := fun h => hj h.symm
  induction m with
  | nil => simp [recordSet, lookupEntry_cons, lookupEntry, hkj]
  | cons p rest ih =>
      by_cases hp : p.1 = k
      · have hpj : ¬ p.1 = j := by rw [hp]; exact hkj
        simp only [recordSet, if_pos hp, lookupEntry_cons]
        simp [hkj, hpj]
      · simp only [recordSet, if_neg hp, lookupEntry_cons]
        by_cases hpj : p.1 = j
        · simp [hpj]
        · simp [hpj, ih]

theorem keys_recordSet (m : List (String × String)) (k v : String) :
    (recordSet m k v).map Prod.fst
      = if k ∈ m.map Prod.fst then m.map Prod.fst
        else m.map Prod.fst ++ [k] := by
  induction m with
  | nil => simp [recordSet]
  | cons p rest ih =>
      by_cases hp : p.1 = k
      · simp [recordSet, hp]
      · have hkp : ¬ k = p.1 := fun h => hp h.symm
        by_cases hmem : k ∈ rest.map Prod.fst
        · simp [recordSet, hp, ih, hmem, hkp]
        · simp [recordSet, hp, ih, hmem, hkp]

theorem mem_keys_recordSet (m : List (String × String)) (k v j : String)
    (hj : j ∈ (recordSet m k v).map Prod.fst) :
    j ∈ m.map Prod.fst ∨ j = k := by
  rw [keys_recordSet] at hj
  by_cases hmem : k ∈ m.map Prod.fst
  · rw [if_pos hmem] at hj; exact Or.inl hj
  · rw [if_neg hmem] at hj
    rcases List.mem_append.mp hj with h | h
    · exact Or.inl h
    · exact Or.inr (by simpa using h)

theorem nodup_keys_recordSet (m : List (String × String)) (k v : String)
    (h : (m.map Prod.fst).Nodup) :
    ((recordSet m k v).map Prod.fst).Nodup := by
  rw [keys_recordSet]
  by_cases hmem : k ∈ m.map Prod.fst
  · simpa [hmem] using h
  · simp [hmem, List.nodup_append, h]

theorem lookupEntry_read_multiple_aux (fetch : String → UpstreamOutcome String) :
    ∀ (paths : List String) (m : List (String × String)) (k : String),
      lookupEntry (paths.foldl (fun acc p => recordSet acc p (fileEntry fetch p)) m) k
        = if k ∈ paths then some (fileEntry fetch k) else lookupEntry m k := by
  intro paths
  induction paths with
  | nil => intro m k; simp
  | cons q rest ih =>
      intro m k
      by_cases hk : k ∈ rest
      · simp [ih, hk]
      · by_cases hkq : k = q
        · subst hkq
          simp [ih, hk, lookupEntry_recordSet_self]
        · simp [ih, hk, hkq, lookupEntry_recordSet_other _ _ _ _ hkq]

theorem read_multiple_keys_aux (fetch : String → UpstreamOutcome String) :
    ∀ (paths : List String) (m : List (String × String)),
      (m.map Prod.fst).Nodup →
      ((paths.foldl (fun acc p => recordSet acc p (fileEntry fetch p)) m).map Prod.fst).Nodup
      ∧ ∀ k, k ∈ (paths.foldl (fun acc p => recordSet acc p (fileEntry fetch p)) m).map Prod.fst
          → k ∈ m.map Prod.fst ∨ k ∈ paths := by
  intro paths
  induction paths with
  | nil => intro m h; exact ⟨h, fun k hk => Or.inl hk⟩
  | cons q rest ih =>
      intro m h
      have h1 : ((recordSet m q (fileEntry fetch q)).map Prod.fst).Nodup :=
        nodup_keys_recordSet m q _ h
      obtain ⟨hn, hsub⟩ := ih (recordSet m q (fileEntry fetch q)) h1
      refine ⟨by simpa using hn, ?_⟩
      intro k hk
      rcases hsub k (by simpa using hk) with hmem | hrest
      · rcases mem_keys_recordSet m q _ k hmem with h2 | h2
        · exact Or.inl h2
        · subst h2; exact Or.inr (by simp)
      · exact Or.inr (by simp [hrest])

/- ### Claim theorems -/

/-- Claim C1: a session identifier occupies at most one slot of the
session table (never duplicated once added at stream establishment), and
once the stream closes — by any cause, so after the `streamClose` event —
every subsequent lookup of that identifier returns not-found, provided no
later event re-opens the same identifier (identifiers are fresh and never
reused). -/
theorem session_table_closure_cleanup
    (t0 : List String) (pre post : List SessionEvent) (id : String)
    (hnodup : t0.Nodup)
    (hfresh : ∀ e ∈ post, e ≠ SessionEvent.streamOpen id) :
    lookupSession (runEvents t0 (pre ++ SessionEvent.streamClose id :: post)) id = false
    ∧ (runEvents t0 (pre ++ SessionEvent.streamClose id :: post)).Nodup := by
  have hsplit : runEvents t0 (pre ++ SessionEvent.streamClose id :: post)
      = runEvents (applyEvent (runEvents t0 pre) (SessionEvent.streamClose id)) post := by
    simp [runEvents, List.foldl_append]
  constructor
  · rw [hsplit, lookupSession_eq_false_iff]
    exact not_mem_runEvents id post _
      (not_mem_removeSession (runEvents t0 pre) id) hfresh
  · rw [hsplit]
    exact nodup_runEvents post _
      (nodup_applyEvent _ _ (nodup_runEvents pre t0 hnodup))

/-- Witness for C1 at a concrete trace: open s1, close s1, then open a
different session s2; s1 is no longer found and the table stays duplicate
free. -/
theorem session_table_closure_cleanup_witness :
    lookupSession (runEvents []
      ([SessionEvent.streamOpen "s1"] ++ SessionEvent.streamClose "s1"
        :: [SessionEvent.streamOpen "s2"])) "s1" = false
    ∧ (runEvents []
      ([SessionEvent.streamOpen "s1"] ++ SessionEvent.streamClose "s1"
        :: [SessionEvent.streamOpen "s2"])).Nodup :=
  session_table_closure_cleanup [] [SessionEvent.streamOpen "s1"]
    [SessionEvent.streamOpen "s2"] "s1" (by simp) (by decide)

/-- Claim C2: a POST to `/messages` with a missing session identifier is
rejected with the 400-class response, one whose identifier is not in the
session table is rejected with the 404-class response, and in both cases
the dispatch path (handlePostMessage) is never reached.  An empty
identifier is falsy in the source and counts as missing. -/
theorem messages_endpoint_rejections (table : List String) (postOk : Bool) :
    handle_messages table none postOk = (PostOutcome.badRequest, false)
    ∧ ∀ sid, sid ≠ "" → sid ∉ table →
        handle_messages table (some sid) postOk = (PostOutcome.notFound, false) := by
  refine ⟨rfl, fun sid hne hnm => ?_⟩
  simp [handle_messages, hne, hnm]

/-- Witness for C2: a table holding only session s1 rejects a POST with
no identifier with 400 and a POST for the unknown identifier s2 with
404, without dispatching either. -/
theorem messages_endpoint_rejections_witness :
    handle_messages ["s1"] none true = (PostOutcome.badRequest, false)
    ∧ ("s2" ≠ "" ∧ "s2" ∉ ["s1"]
        ∧ handle_messages ["s1"] (some "s2") true = (PostOutcome.notFound, false)) :=
  ⟨(messages_endpoint_rejections ["s1"] true).1,
    by decide, by decide,
    (messages_endpoint_rejections ["s1"] true).2 "s2" (by decide) (by decide)⟩

/-- Claim C3 (code bug): when the create-at-new-path step succeeds and
the delete-at-old-path step then fails, rename_file does not report
partial success; the delete exception escapes and the outcome is the
generic error result — literally equal to the outcome of a run in which
the create step itself had failed with the same upstream error, so the
partial state (new copy created, stale original left) is not
distinguished from a clean failure. -/
theorem rename_file_delete_failure_is_generic :
    rename_file "src/Old.tsx" "src/New.tsx"
        (UpstreamOutcome.ok ⟨"file body", "sha0"⟩)
        (UpstreamOutcome.ok ()) (UpstreamOutcome.fail 409 "merge conflict")
      = HandlerOutcome.errorResult (githubErrorMsg 409 "merge conflict")
    ∧ rename_file "src/Old.tsx" "src/New.tsx"
        (UpstreamOutcome.ok ⟨"file body", "sha0"⟩)
        (UpstreamOutcome.ok ()) (UpstreamOutcome.fail 409 "merge conflict")
      = rename_file "src/Old.tsx" "src/New.tsx"
        (UpstreamOutcome.ok ⟨"file body", "sha0"⟩)
        (UpstreamOutcome.fail 409 "merge conflict") (UpstreamOutcome.ok ()) :=
  ⟨rfl, rfl⟩

/-- Claim C4 (code bug): when the upstream PUT rejects update_file's
write because the presented version token is stale (HTTP 409), the
surfaced failure is the generic `GitHub API error` result produced for
every non-success status — the same shape as an unrelated 500 failure —
not a distinct stale-token condition. -/
theorem update_file_stale_token_is_generic :
    update_file (UpstreamOutcome.ok ⟨"old content", "stale-sha"⟩)
        (fun _ => UpstreamOutcome.fail 409
          "main branch does not match stale-sha")
      = HandlerOutcome.errorResult (githubErrorMsg 409
          "main branch does not match stale-sha")
    ∧ update_file (UpstreamOutcome.ok ⟨"old content", "stale-sha"⟩)
        (fun _ => UpstreamOutcome.fail 500 "server exploded")
      = HandlerOutcome.errorResult (githubErrorMsg 500 "server exploded") :=
  ⟨rfl, rfl⟩

/-- Counterexample to claim C5: a read failure other than not-found
(here HTTP 500) does not propagate; update_file swallows it and proceeds
to write without a token, here completing with success.  The PUT oracle
succeeds only when no token is presented, so the success also shows the
write went out token-free. -/
theorem update_file_read_failure_swallowed :
    update_file (UpstreamOutcome.fail 500 "Internal Server Error")
        (fun tok => match tok with
          | none => UpstreamOutcome.ok ⟨"newsha"⟩
          | some _ => UpstreamOutcome.fail 422 "sha mismatch")
      = HandlerOutcome.success "newsha" :=
  rfl

/-- Claim C5 as amended: update_file treats every read failure — not
only not-found — as the create case: any read failure leads to exactly
the run obtained when the read failed with not-found, writing without a
version token, and no read failure ever propagates. -/
theorem update_file_any_read_failure_create_semantics
    (status : Nat) (body : String)
    (put : Option String → UpstreamOutcome CommitInfo) :
    update_file (UpstreamOutcome.fail status body) put
      = update_file (UpstreamOutcome.fail 404 "Not Found") put :=
  rfl

/-- Claim C6: the statistics capability issues exactly four upstream
calls and aggregates their outcomes; a failure of the contributors call
alone is tolerated by substituting the empty list (contributorsCount 0),
while a failure of any of the other three calls fails the whole
operation. -/
theorem get_project_stats_four_calls_tolerance
    (owner repo : String) (r : RepoData) (langs : List (String × Nat))
    (cm : List String) (status : Nat) (body : String)
    (languagesArb : UpstreamOutcome (List (String × Nat)))
    (contributorsArb : UpstreamOutcome (List String))
    (commitsArb : UpstreamOutcome (List String)) :
    (statsEndpoints owner repo).length = 4
    ∧ get_project_stats (UpstreamOutcome.ok r) (UpstreamOutcome.ok langs)
        (UpstreamOutcome.fail status body) (UpstreamOutcome.ok cm)
      = some (statsPayload r langs 0)
    ∧ get_project_stats (UpstreamOutcome.fail status body) languagesArb
        contributorsArb commitsArb = none
    ∧ get_project_stats (UpstreamOutcome.ok r)
        (UpstreamOutcome.fail status body) contributorsArb commitsArb = none
    ∧ get_project_stats (UpstreamOutcome.ok r) (UpstreamOutcome.ok langs)
        contributorsArb (UpstreamOutcome.fail status body) = none := by
  refine ⟨rfl, rfl, rfl, rfl, rfl⟩

/-- Claim C7: generate_build_url is pure string construction — the list
of upstream calls it issues is empty — and with no images the produced
URL is exactly the fixed build-entry portion followed by the
percent-encoded prompt, so it begins with that fixed part and ends with
the encoded prompt. -/
theorem generate_build_url_pure_shape (prompt : String) :
    generate_build_url prompt []
      = (buildUrlBase ++ encodeURIComponent prompt, []) := by
  simp [generate_build_url]

/-- Claim C8: each of the eight convention-folder listing capabilities
returns its explicit absence marker as an ordinary Result when the
repository lacks the folder (the upstream listing fails), rather than
failing; list_utils does so once both src/utils and src/lib are
missing. -/
theorem folder_listings_absence_markers
    (s s2 : Nat) (b b2 : String) :
    list_components (UpstreamOutcome.fail s b)
        = FolderReply.absence "No UI components found"
    ∧ list_custom_components (UpstreamOutcome.fail s b)
        = FolderReply.absence "No custom components found"
    ∧ list_pages (UpstreamOutcome.fail s b)
        = FolderReply.absence "No pages found"
    ∧ list_hooks (UpstreamOutcome.fail s b)
        = FolderReply.absence "No hooks found"
    ∧ list_contexts (UpstreamOutcome.fail s b)
        = FolderReply.absence "No contexts found"
    ∧ list_utils (UpstreamOutcome.fail s b) (UpstreamOutcome.fail s2 b2)
        = FolderReply.absence "No utils/lib found"
    ∧ list_types (UpstreamOutcome.fail s b)
        = FolderReply.absence "No types folder found"
    ∧ list_integrations (UpstreamOutcome.fail s b)
        = FolderReply.absence "No integrations found" :=
  ⟨rfl, rfl, rfl, rfl, rfl, rfl, rfl, rfl⟩

/-- Claim C9: every item emitted by list_issues originates from an
upstream item that does not carry the pull_request marker — those items
are filtered out before reshaping, so the output never contains a pull
request. -/
theorem list_issues_excludes_pull_requests
    (issues : List GhIssue) (o : IssueSummary)
    (ho : o ∈ list_issues issues) :
    ∃ i ∈ issues, i.pullRequest = false ∧ reshapeIssue i = o := by
  simp only [list_issues, List.mem_map, List.mem_filter] at ho
  obtain ⟨i, ⟨hi, hp⟩, hr⟩ := ho
  exact ⟨i, hi, by simpa using hp, hr⟩

/-- Witness for C9: a listing holding one true issue and one pull
request; the emitted summary of the issue is traced back to a non-PR
source item. -/
theorem list_issues_excludes_pull_requests_witness :
    ∃ i ∈ [(⟨1, "bug", "open", "alice", ["p1"], "d1", "u1", false⟩ : GhIssue),
           (⟨2, "feature pr", "open", "bob", [], "d2", "u2", true⟩ : GhIssue)],
      i.pullRequest = false
      ∧ reshapeIssue i = ⟨1, "bug", "open", "alice", ["p1"], "d1", "u1"⟩ :=
  list_issues_excludes_pull_requests
    [⟨1, "bug", "open", "alice", ["p1"], "d1", "u1", false⟩,
     ⟨2, "feature pr", "open", "bob", [], "d2", "u2", true⟩]
    ⟨1, "bug", "open", "alice", ["p1"], "d1", "u1"⟩ (by decide)

/-- Claim C10: the read_multiple_files result maps every requested path
to exactly one entry — the decoded content when its read succeeded,
otherwise the error string for that path — with no other entries and no
duplicates; each entry depends only on its own path's read, and the
operation as a whole never fails. -/
theorem read_multiple_files_per_path
    (fetch : String → UpstreamOutcome String) (paths : List String)
    (p : String) (hp : p ∈ paths) :
    lookupEntry (read_multiple_files fetch paths) p = some (fileEntry fetch p)
    ∧ ((read_multiple_files fetch paths).map Prod.fst).Nodup
    ∧ ∀ k ∈ (read_multiple_files fetch paths).map Prod.fst, k ∈ paths := by
  have hl := lookupEntry_read_multiple_aux fetch paths [] p
  obtain ⟨hn, hsub⟩ := read_multiple_keys_aux fetch paths [] (by simp)
  refine ⟨?_, by simpa [read_multiple_files] using hn, ?_⟩
  · simpa [read_multiple_files, hp] using hl
  · intro k hk
    rcases hsub k (by simpa [read_multiple_files] using hk) with h | h
    · simp at h
    · exact h

/-- Witness for C10 at a concrete request: one readable path and one
missing path; the readable path's entry is its content and the record
keys are exactly the requested paths. -/
theorem read_multiple_files_per_path_witness :
    lookupEntry (read_multiple_files
        (fun q => if q = "src/App.tsx" then UpstreamOutcome.ok "app source"
                  else UpstreamOutcome.fail 404 "Not Found")
        ["src/App.tsx", "missing.ts"]) "src/App.tsx"
      = some (fileEntry
          (fun q => if q = "src/App.tsx" then UpstreamOutcome.ok "app source"
                    else UpstreamOutcome.fail 404 "Not Found") "src/App.tsx")
    ∧ ((read_multiple_files
        (fun q => if q = "src/App.tsx" then UpstreamOutcome.ok "app source"
                  else UpstreamOutcome.fail 404 "Not Found")
        ["src/App.tsx", "missing.ts"]).map Prod.fst).Nodup
    ∧ ∀ k ∈ (read_multiple_files
        (fun q => if q = "src/App.tsx" then UpstreamOutcome.ok "app source"
                  else UpstreamOutcome.fail 404 "Not Found")
        ["src/App.tsx", "missing.ts"]).map Prod.fst,
        k ∈ ["src/App.tsx", "missing.ts"] :=
  read_multiple_files_per_path
    (fun q => if q = "src/App.tsx" then UpstreamOutcome.ok "app source"
              else UpstreamOutcome.fail 404 "Not Found")
    ["src/App.tsx", "missing.ts"] "src/App.tsx" (by decide)
